import Mathlib

/-!
Verification of the animated cat-in-forest canvas page (`src/app/page.tsx`).

The embedding models JavaScript numbers by exact rationals (`ℚ`): the claims
under study are structural (ordering, periodicity, ranges, state transitions),
not statements about floating-point rounding.  The JS remainder operator `%`
(sign of the dividend, truncated division) is modelled by `jsRem`.  The 32-bit
integer pipeline of `mulberry32` is modelled on `ℕ` reduced modulo `2^32`,
which tracks exactly the 32-bit patterns produced by the JS coercions
(`Math.imul`, `^`, `>>>`, `|`): signed and unsigned readings of a pattern are
congruent modulo `2^32`, and every operation in the pipeline only depends on
the pattern.  Transcendental functions (`Math.sin`, `Math.cos`, `Math.PI`)
are abstracted into a `MathEnv` record, since no claim depends on their
numeric values.  Canvas drawing is modelled as a trace: a `List DrawOp`
mirroring the sequence of 2D-context calls the code performs.
-/

/-- Truncation toward zero, the rounding used by the JS `%` operator. -/
def ratTrunc (q : ℚ) : ℤ := if 0 ≤ q then ⌊q⌋ else ⌈q⌉

/-- The JS remainder `a % m`: `a - m * trunc (a / m)`.  It takes the sign of
the dividend `a` (for `m ≠ 0`). -/
def jsRem (a m : ℚ) : ℚ := a - m * ratTrunc (a / m)

/-- `ToUint32`: the 32-bit pattern of an integer. -/
def toU32 (a : ℤ) : ℕ := (a % 4294967296).toNat

/-- `Math.imul` at the level of 32-bit patterns. -/
def imul32 (x y : ℕ) : ℕ := (x * y) % 4294967296

/-- The output pattern of one `mulberry32` step, given the (integer) state
`a` after the increment `a += 0x6d2b79f5`:
`t = Math.imul(t ^ (t >>> 15), t | 1); t ^= t + Math.imul(t ^ (t >>> 7), t | 61);
return ((t ^ (t >>> 14)) >>> 0)`. -/
def mulberryOut (a : ℤ) : ℕ :=
  let t0 := toU32 a
  let t1 := imul32 (t0 ^^^ (t0 >>> 15)) (t0 ||| 1)
  let t2 := t1 ^^^ ((t1 + imul32 (t1 ^^^ (t1 >>> 7)) (t1 ||| 61)) % 4294967296)
  t2 ^^^ (t2 >>> 14)

/-- The value returned by one `mulberry32` call with post-increment state `a`:
`((t ^ (t >>> 14)) >>> 0) / 4294967296`. -/
def mulberryVal (a : ℤ) : ℚ := (mulberryOut a : ℚ) / 4294967296

/-- One call of the generator returned by `mulberry32`: increment the state by
`0x6d2b79f5` and produce the value. -/
def mulberryNext (a : ℤ) : ℤ × ℚ := (a + 0x6d2b79f5, mulberryVal (a + 0x6d2b79f5))

/-- The internal state of `mulberry32(seed)` after `k` calls. -/
def mulberryA (seed : ℤ) : ℕ → ℤ
  | 0 => seed
  | k + 1 => mulberryA seed k + 0x6d2b79f5

/-- The `k`-th value (0-indexed) produced by the generator `mulberry32(seed)`. -/
def mulberrySeq (seed : ℤ) (k : ℕ) : ℚ := mulberryVal (mulberryA seed (k + 1))

/-- A tree descriptor, as produced by `generateTrees`. -/
structure TreeD where
  x : ℚ
  baseY : ℚ
  height : ℚ
  width : ℚ
  layer : ℕ
  hue : ℚ
deriving DecidableEq, Inhabited

/-- The body of the `generateTrees` loop: descriptor number `i` built from the
five random draws `r1 .. r5` consumed in source order
(`x`, `baseY`, `height`, `width`, `hue`). -/
def mkTree (i : ℕ) (r1 r2 r3 r4 r5 : ℚ) (W H : ℚ) : TreeD :=
  let layer := i % 3
  let height := H * (0.12 + (layer : ℚ) * 0.08) * (0.8 + r3 * 0.4)
  { x := r1 * W * 2 - W * 0.5
    baseY := H * (0.65 + (layer : ℚ) * 0.08) + (r2 - 0.5) * 20
    height := height
    width := height * (0.06 + r4 * 0.04)
    layer := layer
    hue := 115 + (layer : ℚ) * 10 + r5 * 10 }

/-- The unsorted tree list together with the final RNG state: the source loop
`for (let i = 0; i < count; i++)` drawing five RNG values per tree. -/
def generateTreesRaw (count : ℕ) (W H : ℚ) : List TreeD :=
  ((List.range count).foldl (fun (st : ℤ × List TreeD) i =>
    let (a1, r1) := mulberryNext st.1
    let (a2, r2) := mulberryNext a1
    let (a3, r3) := mulberryNext a2
    let (a4, r4) := mulberryNext a3
    let (a5, r5) := mulberryNext a4
    (a5, st.2 ++ [mkTree i r1 r2 r3 r4 r5 W H])) (123456, [])).2

/-- Stable insertion used to model `trees.sort((a, b) => a.layer - b.layer)`:
the new element goes after every element with a layer less than or equal to
its own, so equal-layer elements keep their original relative order, exactly
as the (stable) JS sort does. -/
def insertTree (t : TreeD) : List TreeD → List TreeD
  | [] => [t]
  | u :: us => if u.layer ≤ t.layer then u :: insertTree t us else t :: u :: us

/-- Stable sort by `layer`, modelling `trees.sort((a, b) => a.layer - b.layer)`. -/
def sortByLayer (l : List TreeD) : List TreeD := l.foldl (fun acc t => insertTree t acc) []

/-- `generateTrees(count, W, H)` from the source: build the descriptors with
the fixed seed `123456`, then sort ascending by parallax layer. -/
def generateTrees (count : ℕ) (W H : ℚ) : List TreeD :=
  sortByLayer (generateTreesRaw count W H)

/-- Comparison on descriptors by parallax layer. -/
def LayerLE (a b : TreeD) : Prop := a.layer ≤ b.layer

theorem mem_insertTree {t x : TreeD} : ∀ {l : List TreeD},
    x ∈ insertTree t l → x = t ∨ x ∈ l := by
  intro l
  induction l with
  | nil => simp [insertTree]
  | cons u us ih =>
    simp only [insertTree]
    by_cases h : u.layer ≤ t.layer
    · simp only [if_pos h, List.mem_cons]
      rintro (rfl | hx)
      · exact Or.inr (Or.inl rfl)
      · rcases ih hx with h1 | h1
        · exact Or.inl h1
        · exact Or.inr (Or.inr h1)
    · simp only [if_neg h, List.mem_cons]
      rintro (rfl | hx)
      · exact Or.inl rfl
      · exact Or.inr hx

theorem sorted_insertTree (t : TreeD) : ∀ l : List TreeD,
    List.Sorted LayerLE l → List.Sorted LayerLE (insertTree t l) := by
  intro l
  induction l with
  | nil => intro _; simp [insertTree, List.Sorted]
  | cons u us ih =>
    intro hs
    rw [List.sorted_cons] at hs
    obtain ⟨hu, hus⟩ := hs
    simp only [insertTree]
    by_cases h : u.layer ≤ t.layer
    · rw [if_pos h, List.sorted_cons]
      refine ⟨?_, ih hus⟩
      intro b hb
      rcases mem_insertTree hb with rfl | hb
      · exact h
      · exact hu b hb
    · rw [if_neg h, List.sorted_cons]
      push_neg at h
      refine ⟨?_, List.sorted_cons.mpr ⟨hu, hus⟩⟩
      intro b hb
      rcases List.mem_cons.mp hb with rfl | hb
      · exact le_of_lt h
      · exact le_trans (le_of_lt h) (hu b hb)

theorem sorted_sortByLayer (l : List TreeD) : List.Sorted LayerLE (sortByLayer l) := by
  suffices h : ∀ acc : List TreeD, List.Sorted LayerLE acc →
      List.Sorted LayerLE (l.foldl (fun acc t => insertTree t acc) acc) by
    exact h [] (by simp [List.Sorted])
  induction l with
  | nil => intro acc hacc; simpa using hacc
  | cons t ts ih =>
    intro acc hacc
    exact ih (insertTree t acc) (sorted_insertTree t acc hacc)

/-- **C2.** For every count `n ≥ 0` and dimensions `W`, `H`, the sequence
returned by `generateTrees(n, W, H)` is sorted non-decreasing by its
`parallaxLayer` field. -/
theorem generateTrees_sorted_by_layer (count : ℕ) (W H : ℚ) :
    List.Sorted LayerLE (generateTrees count W H) :=
  sorted_sortByLayer (generateTreesRaw count W H)

theorem mulberryOut_lt (a : ℤ) : mulberryOut a < 4294967296 := by
  have h32 : (4294967296 : ℕ) = 2 ^ 32 := by norm_num
  unfold mulberryOut
  have h1 : imul32 ((toU32 a) ^^^ ((toU32 a) >>> 15)) ((toU32 a) ||| 1) < 4294967296 := by
    unfold imul32; exact Nat.mod_lt _ (by norm_num)
  set t1 := imul32 ((toU32 a) ^^^ ((toU32 a) >>> 15)) ((toU32 a) ||| 1) with ht1
  have h2 : (t1 + imul32 (t1 ^^^ (t1 >>> 7)) (t1 ||| 61)) % 4294967296 < 4294967296 :=
    Nat.mod_lt _ (by norm_num)
  have h3 : t1 ^^^ ((t1 + imul32 (t1 ^^^ (t1 >>> 7)) (t1 ||| 61)) % 4294967296) < 4294967296 := by
    rw [h32] at h1 h2 ⊢
    exact Nat.xor_lt_two_pow h1 h2
  set t2 := t1 ^^^ ((t1 + imul32 (t1 ^^^ (t1 >>> 7)) (t1 ||| 61)) % 4294967296) with ht2
  have h4 : t2 >>> 14 < 4294967296 :=
    lt_of_le_of_lt (by rw [Nat.shiftRight_eq_div_pow]; exact Nat.div_le_self _ _) h3
  rw [h32] at h3 h4 ⊢
  exact Nat.xor_lt_two_pow h3 h4

/-- **C5.** For every integer seed and every call index `k`, the generator
returned by `mulberry32(seed)` yields a value `v` with `0 ≤ v < 1`.  The
sequence is a deterministic function of the seed alone: `mulberrySeq` takes
no input other than the seed and the call index (no external entropy). -/
theorem mulberry_output_range (seed : ℤ) (k : ℕ) :
    0 ≤ mulberrySeq seed k ∧ mulberrySeq seed k < 1 := by
  unfold mulberrySeq mulberryVal
  constructor
  · positivity
  · rw [div_lt_one (by norm_num)]
    exact_mod_cast mulberryOut_lt (mulberryA seed (k + 1))

theorem jsRem_zero_left (m : ℚ) : jsRem 0 m = 0 := by
  simp [jsRem, ratTrunc]

theorem jsRem_self (m : ℚ) (hm : 0 < m) : jsRem m m = 0 := by
  unfold jsRem ratTrunc
  rw [div_self (ne_of_gt hm)]
  norm_num

/-- Key fact about the JS remainder: once the dividend is non-positive,
shifting it down by one (positive) modulus does not change the remainder.
(For a positive dividend this is false: the JS `%` takes the dividend's
sign, so the remainder jumps by `m` when the dividend crosses zero.) -/
theorem jsRem_sub_modulus (a m : ℚ) (hm : 0 < m) (ha : a ≤ 0) :
    jsRem (a - m) m = jsRem a m := by
  unfold jsRem ratTrunc
  rcases lt_or_eq_of_le ha with hneg | h0
  · have hdm : a / m < 0 := div_neg_of_neg_of_pos hneg hm
    have hdm2 : (a - m) / m < 0 := div_neg_of_neg_of_pos (by linarith) hm
    rw [if_neg (not_le.mpr hdm), if_neg (not_le.mpr hdm2)]
    have key : (a - m) / m = a / m - 1 := by field_simp
    rw [key, Int.ceil_sub_one]
    push_cast
    ring
  · subst h0
    have h1 : (0 - m) / m = -1 := by field_simp
    have hc : ⌈(-1 : ℚ)⌉ = (-1 : ℤ) := by
      rw [show ((-1 : ℚ)) = ((-1 : ℤ) : ℚ) by norm_num, Int.ceil_intCast]
    rw [h1, zero_div]
    norm_num [hc]

/-- The per-layer scroll speed `[8, 16, 32][tr.layer]` from `drawForest`:
layer 0 (farthest) is slowest. -/
def layerSpeed (l : ℕ) : ℚ := [(8 : ℚ), 16, 32].getD l 0

/-- The horizontal screen position of a tree from `drawForest`:
`((tr.x - t * speed) % (W * 2)) + W`. -/
def treePx (x W s t : ℚ) : ℚ := jsRem (x - t * s) (W * 2) + W

unseal Rat.mul Rat.inv Rat.add Rat.sub Rat.ofScientific in
/-- **C3 (counterexample).** The claimed wrap period fails at a concrete
input: a tree with original position `5` on a surface of width `1280`,
layer 0 (speed 8), drawn at `e = 0` sits at screen position `1285`, but at
`e = (2*1280)/8 = 320` it sits at `-1275`: the JS `%` operator keeps the
dividend's sign, so the position is shifted by `2*W` until the dividend
`x - e*speed` crosses zero. -/
theorem treePx_wrap_fails_at_sign_change :
    treePx 5 1280 (layerSpeed 0) 0 ≠ treePx 5 1280 (layerSpeed 0) (0 + 2 * 1280 / layerSpeed 0) := by
  decide

/-- **C3 (amended).** For every layer `l < 3` (speed one of the three fixed
constants 8, 16, 32, farthest slowest), width `W > 0` and elapsed time `e`
such that the scroll has already crossed zero (`x - e*speed ≤ 0`, which holds
for all sufficiently large `e`), the computed horizontal screen position
`((x - e*speed) % (2*W)) + W` at `e` equals the position at `e + (2*W)/speed`:
the horizontal scroll wraps with period `(2*W)/speed` from the first zero
crossing on. -/
theorem treePx_wrap_period_after_crossing (l : ℕ) (x W t : ℚ)
    (hl : l < 3) (hW : 0 < W) (hx : x - t * layerSpeed l ≤ 0) :
    treePx x W (layerSpeed l) t = treePx x W (layerSpeed l) (t + 2 * W / layerSpeed l) := by
  have hs : (0 : ℚ) < layerSpeed l := by
    interval_cases l <;> norm_num [layerSpeed]
  unfold treePx
  have harg : x - (t + 2 * W / layerSpeed l) * layerSpeed l = (x - t * layerSpeed l) - W * 2 := by
    field_simp
    ring
  rw [harg, jsRem_sub_modulus _ _ (by linarith) hx]

/-- Witness for `treePx_wrap_period_after_crossing` at layer 0, `x = -5`,
`W = 1280`, `e = 0`. -/
theorem treePx_wrap_period_witness :
    treePx (-5) 1280 (layerSpeed 0) 0 = treePx (-5) 1280 (layerSpeed 0) (0 + 2 * 1280 / layerSpeed 0) :=
  treePx_wrap_period_after_crossing 0 (-5) 1280 0 (by norm_num) (by norm_num)
    (by norm_num [layerSpeed])

/-- The cat's horizontal position from `drawCat`:
`x = ((t * 140) % (W + 300)) - 150` (speed 140 px/sec, loop distance
`W + 300`, offset so the figure starts off-screen left). -/
def catX (W t : ℚ) : ℚ := jsRem (t * 140) (W + 300) - 150

/-- **C4.** For every positive surface width, the character's horizontal
position equals `-150` at `elapsedSeconds = 0` and equals `-150` again at
`elapsedSeconds = (width + 300) / speed` with `speed = 140`: the position
loops over a distance of `width + 300` at fixed speed 140. -/
theorem catX_loop_positions (W : ℚ) (hW : 0 < W) :
    catX W 0 = -150 ∧ catX W ((W + 300) / 140) = -150 := by
  constructor
  · unfold catX
    rw [zero_mul, jsRem_zero_left]
    norm_num
  · unfold catX
    have h : (W + 300) / 140 * 140 = W + 300 := by field_simp
    rw [h, jsRem_self _ (by linarith)]
    norm_num

/-- Witness for `catX_loop_positions` at the deployed width `1280`. -/
theorem catX_loop_positions_witness :
    catX 1280 0 = -150 ∧ catX 1280 ((1280 + 300) / 140) = -150 :=
  catX_loop_positions 1280 (by norm_num)

set_option maxRecDepth 4000 in
unseal Rat.mul Rat.inv Rat.add Rat.sub Rat.ofScientific in
/-- **C8 (counterexample).** At the application's own call
`generateTrees(24, 1280, 720)`, the descriptor at (sorted) position 13 has
`parallaxLayer = 1` and the one at position 18 has `parallaxLayer = 2`, yet
the layer-2 tree is NOT strictly taller: the per-tree random factor
`(0.8 + rng()*0.4)` in the height can invert the order between adjacent
layers, so a strictly greater layer does not imply a strictly greater
height. -/
theorem tree_height_not_layer_monotone :
    ((generateTrees 24 1280 720).getD 13 default).layer = 1 ∧
    ((generateTrees 24 1280 720).getD 18 default).layer = 2 ∧
    ¬ ((generateTrees 24 1280 720).getD 13 default).height <
      ((generateTrees 24 1280 720).getD 18 default).height := by
  decide

set_option maxRecDepth 8000 in
unseal Rat.mul Rat.inv Rat.add Rat.sub Rat.ofScientific in
/-- **C8 (amended).** The layer-dependent scale factors do grow with the
layer: for `H > 0` and non-negative random draws, two descriptors computed
from identical random draws with strictly increasing layer index have
strictly increasing base vertical position, height and width.  Moreover, at
the deployed call `generateTrees(24, 1280, 720)` the base vertical position
(though not the height, per the counterexample) is strictly increasing in
the layer across every pair.  For independently drawn descriptors, the
random height jitter `(0.8 + rng()*0.4)` can invert the height (and width)
order between adjacent layers. -/
theorem tree_attrs_scale_with_layer (i j : ℕ) (r1 r2 r3 r4 r5 : ℚ) (W H : ℚ)
    (hH : 0 < H) (hr3 : 0 ≤ r3) (hr4 : 0 ≤ r4) (hij : i % 3 < j % 3) :
    ((mkTree i r1 r2 r3 r4 r5 W H).baseY < (mkTree j r1 r2 r3 r4 r5 W H).baseY ∧
     (mkTree i r1 r2 r3 r4 r5 W H).height < (mkTree j r1 r2 r3 r4 r5 W H).height ∧
     (mkTree i r1 r2 r3 r4 r5 W H).width < (mkTree j r1 r2 r3 r4 r5 W H).width) ∧
    (generateTrees 24 1280 720).Pairwise
      (fun a b => a.layer < b.layer → a.baseY < b.baseY) := by
  have hab : ((i % 3 : ℕ) : ℚ) < ((j % 3 : ℕ) : ℚ) := by exact_mod_cast hij
  have hcd : (0 : ℚ) < ((j % 3 : ℕ) : ℚ) - ((i % 3 : ℕ) : ℚ) := by linarith
  have hHd : (0 : ℚ) < H * (((j % 3 : ℕ) : ℚ) - ((i % 3 : ℕ) : ℚ)) := mul_pos hH hcd
  have hr3p : (0 : ℚ) < 0.8 + r3 * 0.4 := by linarith
  have hr4p : (0 : ℚ) < 0.06 + r4 * 0.04 := by linarith
  have hheight : (mkTree i r1 r2 r3 r4 r5 W H).height < (mkTree j r1 r2 r3 r4 r5 W H).height := by
    simp only [mkTree]
    nlinarith [mul_pos hHd hr3p]
  refine ⟨⟨?_, hheight, ?_⟩, ?_⟩
  · simp only [mkTree]
    nlinarith [hHd]
  · simp only [mkTree] at hheight ⊢
    exact mul_lt_mul_of_pos_right hheight hr4p
  · decide

/-- Witness for `tree_attrs_scale_with_layer`: layers 0 and 1 with all five
random draws equal to `1/2`, at the deployed dimensions. -/
theorem tree_attrs_scale_with_layer_witness :
    ((mkTree 0 0.5 0.5 0.5 0.5 0.5 1280 720).baseY < (mkTree 1 0.5 0.5 0.5 0.5 0.5 1280 720).baseY ∧
     (mkTree 0 0.5 0.5 0.5 0.5 0.5 1280 720).height < (mkTree 1 0.5 0.5 0.5 0.5 0.5 1280 720).height ∧
     (mkTree 0 0.5 0.5 0.5 0.5 0.5 1280 720).width < (mkTree 1 0.5 0.5 0.5 0.5 0.5 1280 720).width) ∧
    (generateTrees 24 1280 720).Pairwise
      (fun a b => a.layer < b.layer → a.baseY < b.baseY) :=
  tree_attrs_scale_with_layer 0 1 0.5 0.5 0.5 0.5 0.5 1280 720 (by norm_num) (by norm_num)
    (by norm_num) (by decide)

/-- The transcendental functions the drawing code uses (`Math.sin`,
`Math.cos`, `Math.PI`), abstracted: every claim under study holds for an
arbitrary interpretation of them. -/
structure MathEnv where
  sin : ℚ → ℚ
  cos : ℚ → ℚ
  pi : ℚ

/-- A concrete, fully computable interpretation of the transcendental
functions, used to instantiate witnesses and counterexamples. -/
def envId : MathEnv := { sin := fun q => q, cos := fun q => q, pi := 3 }

/-- `noise2D(x, y)`: `sin(x*1.3 + y*0.7) * cos(x*0.7 - y*1.1) * 0.5 + 0.5`. -/
def noise2D (env : MathEnv) (x y : ℚ) : ℚ :=
  env.sin (x * 1.3 + y * 0.7) * env.cos (x * 0.7 - y * 1.1) * 0.5 + 0.5

/-- A paint style assigned to `fillStyle` / `strokeStyle`. -/
inductive Paint where
  | css : String → Paint
  | hsl : ℚ → ℚ → ℚ → Paint
  | rgba : ℚ → ℚ → ℚ → ℚ → Paint
  | linearGradient : ℚ → ℚ → ℚ → ℚ → List (ℚ × String) → Paint
deriving DecidableEq

/-- One drawing operation on the 2D context: the rendered frame is modelled
as the sequence of such operations the code issues. -/
inductive DrawOp where
  | setFillStyle : Paint → DrawOp
  | setStrokeStyle : Paint → DrawOp
  | setLineWidth : ℚ → DrawOp
  | setLineCap : String → DrawOp
  | fillRect : ℚ → ℚ → ℚ → ℚ → DrawOp
  | beginPath : DrawOp
  | closePath : DrawOp
  | fill : DrawOp
  | stroke : DrawOp
  | moveTo : ℚ → ℚ → DrawOp
  | lineTo : ℚ → ℚ → DrawOp
  | quadraticCurveTo : ℚ → ℚ → ℚ → ℚ → DrawOp
  | ellipse : ℚ → ℚ → ℚ → ℚ → ℚ → ℚ → ℚ → DrawOp
  | arc : ℚ → ℚ → ℚ → ℚ → ℚ → DrawOp
deriving DecidableEq

/-- The x-samples of one hill silhouette: `for (let x = 0; x <= W; x += 8)`. -/
def hillXs (W : ℚ) : List ℚ := (List.range (⌊W / 8⌋ + 1).toNat).map (fun k => 8 * (k : ℚ))

/-- `drawHills(ctx, W, H, t)`: three filled wave silhouettes; each layer's
vertical offset is a sinusoid of horizontal position with per-layer phase
`i*200` and per-layer temporal speed `0.05 + i*0.02`. -/
def drawHills (env : MathEnv) (W H t : ℚ) : List DrawOp :=
  ((List.range 3).map (fun i =>
    let yBase := H * (0.55 - (i : ℚ) * 0.07)
    [DrawOp.setFillStyle (.hsl (140 + (i : ℚ) * 8) 25 (70 - (i : ℚ) * 8)),
     DrawOp.beginPath, DrawOp.moveTo 0 H]
    ++ (hillXs W).map (fun x =>
         DrawOp.lineTo x (yBase + 30 * env.sin ((x + (i : ℚ) * 200) * 0.004 + t * (0.05 + (i : ℚ) * 0.02))))
    ++ [DrawOp.lineTo W H, DrawOp.closePath, DrawOp.fill])).flatten

/-- `drawBlob(ctx, x, y, w, h)`: an irregular closed polygon sampled at 17
angular steps, each radius perturbed by `noise2D`. -/
def drawBlob (env : MathEnv) (x y w h : ℚ) : List DrawOp :=
  [DrawOp.beginPath]
  ++ ((List.range 17).map (fun i =>
      let a := ((i : ℚ) / 16) * env.pi * 2
      let rx := env.cos a * w * (0.45 + 0.1 * noise2D env (env.cos a) (env.sin a))
      let ry := env.sin a * h * (0.45 + 0.1 * noise2D env (env.sin a) (env.cos a))
      let px := x + w * 0.5 + rx
      let py := y + h * 0.5 + ry
      if i = 0 then DrawOp.moveTo px py else DrawOp.lineTo px py))
  ++ [DrawOp.closePath, DrawOp.fill]

/-- `drawForest(ctx, W, H, trees, t)`: for each descriptor, a trunk
rectangle at the wrapped position `treePx` and a canopy blob. -/
def drawForest (env : MathEnv) (W H : ℚ) (trees : List TreeD) (t : ℚ) : List DrawOp :=
  (trees.map (fun tr =>
    let s := layerSpeed tr.layer
    let px := treePx tr.x W s t
    let canopyW := tr.width * 6
    let canopyH := tr.height * 0.8
    [DrawOp.setFillStyle (.hsl tr.hue 25 (30 + (tr.layer : ℚ) * 5)),
     DrawOp.fillRect px (tr.baseY - tr.height) tr.width tr.height,
     DrawOp.setFillStyle (.hsl tr.hue 35 (28 + (tr.layer : ℚ) * 8))]
    ++ drawBlob env (px - canopyW * 0.3) (tr.baseY - tr.height - canopyH * 0.5) canopyW canopyH)).flatten

/-- `drawGrass(ctx, W, H, t)`: 140 blade strokes, each a quadratic curve
whose position, height and sway are functions of `t` and the blade index. -/
def drawGrass (env : MathEnv) (W H t : ℚ) : List DrawOp :=
  [DrawOp.setStrokeStyle (.css "#2a5f2a"), DrawOp.setLineWidth 2]
  ++ ((List.range 140).map (fun i =>
      let x := jsRem (((i : ℚ) / 140) * W + env.sin ((t + (i : ℚ)) * 0.7) * 20) W
      let h := 30 + 20 * env.sin ((i : ℚ) * 0.5 + t * 1.2)
      let sway := env.sin (t * 2 + (i : ℚ)) * 8
      [DrawOp.beginPath, DrawOp.moveTo x (H * 0.98),
       DrawOp.quadraticCurveTo (x + sway) (H * 0.98 - h * 0.6) (x + sway * 1.6) (H * 0.98 - h),
       DrawOp.stroke])).flatten

/-- `drawCat(ctx, t, W, H)` from the source: shadow, tail, body, four legs,
head, ears, eye, nose, whiskers, in source order.  The gait oscillation
`step = sin(t*8)` and the bob `bob = sin(t*6) * 4` appear as in the source. -/
def drawCat (env : MathEnv) (t W H : ℚ) : List DrawOp :=
  let groundY := H * 0.78
  let x := catX W t
  let step := env.sin (t * 8)
  let bob := env.sin (t * 6) * 4
  let bodyY := groundY - 80 + bob
  let legY := groundY - 8
  let headX := x + 180
  let headY := bodyY - 10
  [DrawOp.setFillStyle (.rgba 0 0 0 0.15), DrawOp.beginPath,
   DrawOp.ellipse (x + 120) (groundY + 6) 80 16 0 0 (env.pi * 2), DrawOp.fill,
   DrawOp.setStrokeStyle (.css "#333"), DrawOp.setLineWidth 14, DrawOp.setLineCap "round",
   DrawOp.beginPath, DrawOp.moveTo (x + 40) (bodyY - 10),
   DrawOp.quadraticCurveTo (x - 20) (bodyY - 50 - step * 8) (x + 10) (bodyY - 70 - step * 4),
   DrawOp.stroke,
   DrawOp.setFillStyle (.css "#444"), DrawOp.beginPath,
   DrawOp.ellipse (x + 110) bodyY 90 48 0 0 (env.pi * 2), DrawOp.fill,
   DrawOp.setStrokeStyle (.css "#3a3a3a"), DrawOp.setLineWidth 10, DrawOp.setLineCap "round"]
  ++ ((List.range 4).map (fun i =>
      let phase := if i % 2 = 0 then step else -step
      let lx := x + 70 + (i : ℚ) * 22
      [DrawOp.beginPath, DrawOp.moveTo lx (bodyY + 20),
       DrawOp.lineTo (lx + phase * 12) legY, DrawOp.stroke])).flatten
  ++ [DrawOp.setFillStyle (.css "#4b4b4b"), DrawOp.beginPath,
      DrawOp.ellipse headX headY 34 30 0 0 (env.pi * 2), DrawOp.fill,
      DrawOp.setFillStyle (.css "#3e3e3e"), DrawOp.beginPath,
      DrawOp.moveTo (headX - 18) (headY - 20), DrawOp.lineTo (headX - 6) (headY - 40),
      DrawOp.lineTo (headX + 2) (headY - 18), DrawOp.closePath, DrawOp.fill,
      DrawOp.beginPath, DrawOp.moveTo (headX + 10) (headY - 18),
      DrawOp.lineTo (headX + 24) (headY - 36), DrawOp.lineTo (headX + 26) (headY - 14),
      DrawOp.closePath, DrawOp.fill,
      DrawOp.setFillStyle (.css "#ffd15c"), DrawOp.beginPath,
      DrawOp.arc (headX + 10) (headY - 4) 4 0 (env.pi * 2), DrawOp.fill,
      DrawOp.setFillStyle (.css "#222"), DrawOp.beginPath,
      DrawOp.arc (headX + 10) (headY - 4) 2 0 (env.pi * 2), DrawOp.fill,
      DrawOp.setFillStyle (.css "#e67d7d"), DrawOp.beginPath,
      DrawOp.arc (headX - 5) (headY + 4) 3 0 (env.pi * 2), DrawOp.fill,
      DrawOp.setStrokeStyle (.css "#ddd"), DrawOp.setLineWidth 1.5]
  ++ ((List.range 3).map (fun k =>
      let i : ℚ := (k : ℚ) - 1
      [DrawOp.beginPath, DrawOp.moveTo (headX - 8) (headY + 4 + i * 4),
       DrawOp.lineTo (headX - 32) (headY + 2 + i * 5), DrawOp.stroke])).flatten

/-- The same figure with the pose inputs made explicit parameters: `x` the
horizontal position, `step` the gait oscillation, `bob` the vertical bob
offset, and `tau` the full-circle angle.  This definition takes neither the
elapsed time nor the transcendental environment: everything time-dependent
enters only through `x`, `step` and `bob`. -/
def drawCatPose (W H x step bob tau : ℚ) : List DrawOp :=
  let groundY := H * 0.78
  let bodyY := groundY - 80 + bob
  let legY := groundY - 8
  let headX := x + 180
  let headY := bodyY - 10
  [DrawOp.setFillStyle (.rgba 0 0 0 0.15), DrawOp.beginPath,
   DrawOp.ellipse (x + 120) (groundY + 6) 80 16 0 0 tau, DrawOp.fill,
   DrawOp.setStrokeStyle (.css "#333"), DrawOp.setLineWidth 14, DrawOp.setLineCap "round",
   DrawOp.beginPath, DrawOp.moveTo (x + 40) (bodyY - 10),
   DrawOp.quadraticCurveTo (x - 20) (bodyY - 50 - step * 8) (x + 10) (bodyY - 70 - step * 4),
   DrawOp.stroke,
   DrawOp.setFillStyle (.css "#444"), DrawOp.beginPath,
   DrawOp.ellipse (x + 110) bodyY 90 48 0 0 tau, DrawOp.fill,
   DrawOp.setStrokeStyle (.css "#3a3a3a"), DrawOp.setLineWidth 10, DrawOp.setLineCap "round"]
  ++ ((List.range 4).map (fun i =>
      let phase := if i % 2 = 0 then step else -step
      let lx := x + 70 + (i : ℚ) * 22
      [DrawOp.beginPath, DrawOp.moveTo lx (bodyY + 20),
       DrawOp.lineTo (lx + phase * 12) legY, DrawOp.stroke])).flatten
  ++ [DrawOp.setFillStyle (.css "#4b4b4b"), DrawOp.beginPath,
      DrawOp.ellipse headX headY 34 30 0 0 tau, DrawOp.fill,
      DrawOp.setFillStyle (.css "#3e3e3e"), DrawOp.beginPath,
      DrawOp.moveTo (headX - 18) (headY - 20), DrawOp.lineTo (headX - 6) (headY - 40),
      DrawOp.lineTo (headX + 2) (headY - 18), DrawOp.closePath, DrawOp.fill,
      DrawOp.beginPath, DrawOp.moveTo (headX + 10) (headY - 18),
      DrawOp.lineTo (headX + 24) (headY - 36), DrawOp.lineTo (headX + 26) (headY - 14),
      DrawOp.closePath, DrawOp.fill,
      DrawOp.setFillStyle (.css "#ffd15c"), DrawOp.beginPath,
      DrawOp.arc (headX + 10) (headY - 4) 4 0 tau, DrawOp.fill,
      DrawOp.setFillStyle (.css "#222"), DrawOp.beginPath,
      DrawOp.arc (headX + 10) (headY - 4) 2 0 tau, DrawOp.fill,
      DrawOp.setFillStyle (.css "#e67d7d"), DrawOp.beginPath,
      DrawOp.arc (headX - 5) (headY + 4) 3 0 tau, DrawOp.fill,
      DrawOp.setStrokeStyle (.css "#ddd"), DrawOp.setLineWidth 1.5]
  ++ ((List.range 3).map (fun k =>
      let i : ℚ := (k : ℚ) - 1
      [DrawOp.beginPath, DrawOp.moveTo (headX - 8) (headY + 4 + i * 4),
       DrawOp.lineTo (headX - 32) (headY + 2 + i * 5), DrawOp.stroke])).flatten

/-- The drawing operations of one frame, in the source's strict
back-to-front order: sky gradient, hills, forest, ground, cat, grass. -/
def renderOps (env : MathEnv) (elapsed W H : ℚ) (trees : List TreeD) : List DrawOp :=
  [DrawOp.setFillStyle (.linearGradient 0 0 0 H [(0, "#a8d0ff"), (1, "#e8f6ff")]),
   DrawOp.fillRect 0 0 W H]
  ++ drawHills env W H elapsed
  ++ drawForest env W H trees elapsed
  ++ [DrawOp.setFillStyle (.linearGradient 0 (H * 0.7) 0 H [(0, "#5aa35a"), (1, "#2e6b2e")]),
      DrawOp.fillRect 0 (H * 0.72) W (H * 0.28)]
  ++ drawCat env elapsed W H
  ++ drawGrass env W H elapsed

/-- The mutable animation state held in `animRef` by the driver. -/
structure AnimState where
  startTime : ℚ
  lastTime : ℚ
  running : Bool
  width : ℚ
  height : ℚ
deriving DecidableEq

/-- The elapsed seconds the `render` callback computes from its timestamp:
`startTime` is set lazily to the first timestamp (`if startTime === 0`),
and `elapsed = (t - startTime) / 1000`. -/
def elapsedOf (s : AnimState) (t : ℚ) : ℚ :=
  (t - (if s.startTime = 0 then t else s.startTime)) / 1000

/-- One invocation of the `render` frame callback: if the running flag is
cleared it does nothing (`none`); otherwise it lazily initialises
`startTime`, computes the elapsed seconds, and emits the frame trace. -/
def renderStep (env : MathEnv) (s : AnimState) (trees : List TreeD) (t : ℚ) :
    Option (AnimState × List DrawOp) :=
  if s.running then
    let start := if s.startTime = 0 then t else s.startTime
    some ({ s with startTime := start }, renderOps env ((t - start) / 1000) s.width s.height trees)
  else none

/-- **C1.** The frame compositor is a pure function of elapsed time, surface
dimensions and the tree list: two running `render` invocations with
arbitrary (different) mutable driver states and timestamps emit the
identical sequence of drawing operations whenever their computed elapsed
times and surface dimensions agree.  No accumulated simulation state
influences the trace. -/
theorem renderStep_trace_pure (env : MathEnv) (s₁ s₂ : AnimState) (trees : List TreeD)
    (t₁ t₂ : ℚ) (h₁ : s₁.running = true) (h₂ : s₂.running = true)
    (hW : s₁.width = s₂.width) (hH : s₁.height = s₂.height)
    (he : elapsedOf s₁ t₁ = elapsedOf s₂ t₂) :
    (renderStep env s₁ trees t₁).map Prod.snd = (renderStep env s₂ trees t₂).map Prod.snd := by
  unfold elapsedOf at he
  simp only [renderStep, h₁, h₂, if_true]
  rw [hW, hH, he]
  rfl

/-- Witness for `renderStep_trace_pure`: two different driver states (one
with `startTime = 2` at timestamp 12, one with `startTime = 5` and a stale
`lastTime` at timestamp 15) produce the same elapsed time `10/1000` and the
same trace. -/
theorem renderStep_trace_pure_witness :
    (renderStep envId ⟨2, 0, true, 1280, 720⟩ [] 12).map Prod.snd =
    (renderStep envId ⟨5, 7, true, 1280, 720⟩ [] 15).map Prod.snd :=
  renderStep_trace_pure envId ⟨2, 0, true, 1280, 720⟩ ⟨5, 7, true, 1280, 720⟩ [] 12 15
    rfl rfl rfl rfl (by norm_num [elapsedOf])

/-- The vertical center of the body ellipse in a cat trace (operation 13 in
the emitted sequence: shadow takes ops 0-3, tail 4-10, body fill style 11,
begin path 12, ellipse 13). -/
def bodyEllipseCenterY (l : List DrawOp) : Option ℚ :=
  match l.get? 13 with
  | some (DrawOp.ellipse _ cy _ _ _ _ _) => some cy
  | _ => none

set_option maxRecDepth 2000 in
unseal Rat.mul Rat.inv Rat.add Rat.sub Rat.ofScientific in
/-- **C7 (counterexample).** The vertical body bob is NOT driven by the
gait-phase sinusoid `sin(t*8)` that drives the legs and the tail: the body
ellipse's vertical center is `H*0.78 - 80 + sin(t*6)*4`, not
`H*0.78 - 80 + sin(t*8)*4`.  Instantiating the abstract sine with the
identity function at `t = 1` separates the two: the emitted center uses
argument 6, the claimed single-sinusoid center would use argument 8. -/
theorem bob_not_driven_by_gait_phase :
    ¬ (∀ (env : MathEnv) (t W H : ℚ),
        bodyEllipseCenterY (drawCat env t W H) = some (H * 0.78 - 80 + env.sin (t * 8) * 4)) := by
  intro h
  exact absurd (h envId 1 1280 720) (by decide)

/-- **C7 (amended).** Two elapsed-time-only sinusoids drive the pose, with
periods independent of the character's position: `step = sin(t*8)` drives
both the leg-swing alternation between the front/back pairs (legs `i` get
phase `±step` by parity) and the tail-curl amplitude (the tail control
points are offset by `step*8` and `step*4`), while the small vertical body
bob is driven by the separate sinusoid `bob = sin(t*6)*4`.  The whole
figure factors through `(x, step, bob)`: `drawCatPose` takes neither the
elapsed time nor the sine function, so the position `x` enters no
oscillator argument. -/
theorem drawCat_pose_factorization (env : MathEnv) (t W H : ℚ) :
    drawCat env t W H =
      drawCatPose W H (catX W t) (env.sin (t * 8)) (env.sin (t * 6) * 4) (env.pi * 2) := rfl

/-- The five-value recording status of the page. -/
inductive RecState where
  | idle
  | recording
  | processing
  | done
  | error
deriving DecidableEq

/-- The React state owned by the page component, plus the driver's running
flag (held in `animRef` and untouched by the capture controller). -/
structure AppState where
  recState : RecState
  errorMsg : Option String
  videoUrl : Option String
  durationSec : ℚ
  animRunning : Bool

/-- The browser capabilities `handleRecord` feature-detects, plus the
platform recorder's behaviour during the session. -/
structure CaptureEnv where
  canvasPresent : Bool
  captureStreamSupported : Bool
  mediaRecorderPresent : Bool
  isTypeSupported : String → Bool
  recorderError : Bool
  objectUrl : String

/-- The ordered codec preference list from `handleRecord`. -/
def mimeTypes : List String :=
  ["video/webm;codecs=vp9,opus", "video/webm;codecs=vp8,opus", "video/webm"]

/-- The mime-type negotiation loop: the first preference for which
`window.MediaRecorder && MediaRecorder.isTypeSupported(mt)` holds. -/
def selectMime (env : CaptureEnv) : Option String :=
  mimeTypes.find? (fun mt => env.mediaRecorderPresent && env.isTypeSupported mt)

/-- One run of `handleRecord`, returning the final component state and the
ordered sequence of `setRecState` calls it performs.  The async flow is
sequentialised in source order: clear message/url; bail out silently without
canvas; detection failures set a message and the error status; otherwise
the recorder runs (an error event, if any, fires during recording), the
timed wait elapses, and the controller still proceeds to `processing` and
`done`, assembling the blob and publishing its URL. -/
def handleRecord (env : CaptureEnv) (s : AppState) : AppState × List RecState :=
  let s0 := { s with errorMsg := none, videoUrl := none }
  if env.canvasPresent = false then (s0, [])
  else if env.captureStreamSupported = false then
    ({ s0 with errorMsg := some "Canvas captureStream not supported in this browser.",
               recState := RecState.error }, [RecState.error])
  else
    match selectMime env with
    | none =>
      ({ s0 with errorMsg := some "MediaRecorder with WebM is not supported by this browser.",
                 recState := RecState.error }, [RecState.error])
    | some _ =>
      if env.recorderError then
        ({ s0 with errorMsg := some "Recording error", recState := RecState.done,
                   videoUrl := some env.objectUrl },
         [RecState.recording, RecState.error, RecState.processing, RecState.done])
      else
        ({ s0 with recState := RecState.done, videoUrl := some env.objectUrl },
         [RecState.recording, RecState.processing, RecState.done])

/-- The transition relation claimed by the spec: the linear chain
`idle → recording → processing → (done | error)`, with done/error able to
restart the chain via a new Record action, and nothing else — in
particular, from `idle` only `recording` is reachable in one step. -/
def chainStepStrict : RecState → RecState → Bool
  | RecState.idle, RecState.recording => true
  | RecState.recording, RecState.processing => true
  | RecState.processing, RecState.done => true
  | RecState.processing, RecState.error => true
  | RecState.done, RecState.recording => true
  | RecState.error, RecState.recording => true
  | _, _ => false

/-- Whether every consecutive transition of a status trace, starting from
`r`, is allowed by `next`. -/
def chainOKFrom (r : RecState) (next : RecState → RecState → Bool) : List RecState → Bool
  | [] => true
  | x :: xs => next r x && chainOKFrom x next xs

/-- A browser with a canvas but no `captureStream` support. -/
def envNoCapture : CaptureEnv :=
  { canvasPresent := true, captureStreamSupported := false, mediaRecorderPresent := true,
    isTypeSupported := fun _ => true, recorderError := false, objectUrl := "blob:demo" }

/-- A fully capable browser with an error-free recorder. -/
def envAllOk : CaptureEnv :=
  { canvasPresent := true, captureStreamSupported := true, mediaRecorderPresent := true,
    isTypeSupported := fun _ => true, recorderError := false, objectUrl := "blob:demo" }

/-- The page's initial component state. -/
def idleApp : AppState :=
  { recState := RecState.idle, errorMsg := none, videoUrl := none, durationSec := 10,
    animRunning := true }

/-- **C6 (counterexample).** Invoked from `idle` in a browser without
`captureStream`, the capture controller's very first status update is
`error`: the status moves from `idle` directly to a state other than
`recording`, so the trace violates the claimed strict chain. -/
theorem recStatus_idle_to_error_direct :
    (handleRecord envNoCapture idleApp).2 = [RecState.error] ∧
    chainOKFrom RecState.idle chainStepStrict (handleRecord envNoCapture idleApp).2 = false :=
  ⟨rfl, rfl⟩

/-- The transition relation the code actually follows: the strict chain plus
(a) a failed capability or format detection moves the start state (`idle`,
`done` or `error`) directly to `error`, and (b) a recorder error event moves
`recording` to `error`, after which the timed flow still proceeds
(`error → processing → done`). -/
def chainStepAmended : RecState → RecState → Bool
  | RecState.idle, RecState.recording => true
  | RecState.idle, RecState.error => true
  | RecState.recording, RecState.processing => true
  | RecState.recording, RecState.error => true
  | RecState.processing, RecState.done => true
  | RecState.processing, RecState.error => true
  | RecState.done, RecState.recording => true
  | RecState.done, RecState.error => true
  | RecState.error, RecState.recording => true
  | RecState.error, RecState.error => true
  | RecState.error, RecState.processing => true
  | _, _ => false

/-- **C6 (amended).** From any state in which the Record button is enabled
(everything except `recording` and `processing`), every status trace the
capture controller emits follows the chain
`idle → recording → processing → (done | error)` amended by: detection
failure moves the start state directly to `error`, and a recorder error
event moves `recording` to `error` with the timed flow still continuing to
`processing` and `done`. -/
theorem recStatus_chain_amended (env : CaptureEnv) (s : AppState)
    (h1 : s.recState ≠ RecState.recording) (h2 : s.recState ≠ RecState.processing) :
    chainOKFrom s.recState chainStepAmended (handleRecord env s).2 = true := by
  rcases s with ⟨rs, em, vu, du, ar⟩
  simp only at h1 h2
  unfold handleRecord
  by_cases hc : env.canvasPresent = false
  · simp [hc, chainOKFrom]
  · by_cases hcs : env.captureStreamSupported = false
    · simp only [hc, hcs, if_false, if_true]
      cases rs <;> simp_all [chainOKFrom, chainStepAmended]
    · cases hm : selectMime env with
      | none =>
        simp only [hc, hcs, hm, if_false]
        cases rs <;> simp_all [chainOKFrom, chainStepAmended]
      | some mt =>
        by_cases hre : env.recorderError
        · simp only [hc, hcs, hm, hre, if_false, if_true]
          cases rs <;> simp_all [chainOKFrom, chainStepAmended]
        · simp only [hc, hcs, hm, hre, if_false]
          cases rs <;> simp_all [chainOKFrom, chainStepAmended]

/-- Witness for `recStatus_chain_amended`: a fully capable browser starting
from the initial `idle` state. -/
theorem recStatus_chain_amended_witness :
    chainOKFrom idleApp.recState chainStepAmended (handleRecord envAllOk idleApp).2 = true :=
  recStatus_chain_amended envAllOk idleApp (by decide) (by decide)

/-- **C9.** If the canvas is present but the capture capability is absent,
or no supported encoding format is found in the preference list, the
capture controller ends with status `error` and a non-empty user-visible
message, and leaves the animation driver's running flag untouched (it never
initiates the render driver's teardown). -/
theorem capture_unsupported_error_no_teardown (env : CaptureEnv) (s : AppState)
    (hc : env.canvasPresent = true)
    (hfail : env.captureStreamSupported = false ∨ selectMime env = none) :
    (handleRecord env s).1.recState = RecState.error ∧
    (∃ m, (handleRecord env s).1.errorMsg = some m ∧ m ≠ "") ∧
    (handleRecord env s).1.animRunning = s.animRunning := by
  by_cases hcs : env.captureStreamSupported = false
  · have heq : handleRecord env s =
        ({ s with errorMsg := some "Canvas captureStream not supported in this browser.",
                  videoUrl := none, recState := RecState.error }, [RecState.error]) := by
      unfold handleRecord
      simp [hc, hcs]
    rw [heq]
    exact ⟨rfl, ⟨_, rfl, by decide⟩, rfl⟩
  · have hm : selectMime env = none := by
      rcases hfail with hf | hf
      · exact absurd hf hcs
      · exact hf
    have heq : handleRecord env s =
        ({ s with errorMsg := some "MediaRecorder with WebM is not supported by this browser.",
                  videoUrl := none, recState := RecState.error }, [RecState.error]) := by
      unfold handleRecord
      simp [hc, hcs, hm]
    rw [heq]
    exact ⟨rfl, ⟨_, rfl, by decide⟩, rfl⟩

/-- Witness for `capture_unsupported_error_no_teardown`: the capability-free
browser `envNoCapture` from the initial state. -/
theorem capture_unsupported_error_no_teardown_witness :
    (handleRecord envNoCapture idleApp).1.recState = RecState.error ∧
    (∃ m, (handleRecord envNoCapture idleApp).1.errorMsg = some m ∧ m ≠ "") ∧
    (handleRecord envNoCapture idleApp).1.animRunning = idleApp.animRunning :=
  capture_unsupported_error_no_teardown envNoCapture idleApp rfl (Or.inl rfl)

/-- The duration stored by the input's change handler (line 164):
`Math.max(1, Math.min(60, Number(e.target.value)))`.  Per the HTML
standard a number input's value is either `""` or a valid floating-point
number string, and `Number("") = +0` in JS, so the parsed value is always
a number: a cleared field parses to `0` and the clamp always applies. -/
def durationAfterChange (q : ℚ) : ℚ := max 1 (min 60 q)

unseal Rat.mul Rat.inv Rat.add Rat.sub Rat.ofScientific in
/-- **C10 (counterexample).** The stored duration is NOT always an
integer-clamped value: typing `2.5` (a valid number string for the input)
makes the handler store `max(1, min(60, 2.5)) = 2.5`, whose denominator
is `2` — the handler clamps but never rounds, so the stored duration need
not be an integer. -/
theorem duration_stored_not_integer :
    durationAfterChange 2.5 = 2.5 ∧ (durationAfterChange 2.5).den ≠ 1 := by
  decide

/-- **C10 (amended).** After any change, the stored duration is
`max(1, min(60, Number(value)))`, which always lies in the closed interval
`[1, 60]` — in particular a cleared field (`Number("") = 0`) stores `1` —
but it need not be an integer: every recording session therefore waits
between 1 and 60 seconds, though not necessarily a whole number of them. -/
theorem duration_clamp_range (q : ℚ) :
    1 ≤ durationAfterChange q ∧ durationAfterChange q ≤ 60 ∧
    durationAfterChange 0 = 1 := by
  unfold durationAfterChange
  refine ⟨le_max_left _ _, max_le (by norm_num) (min_le_left _ _), ?_⟩
  norm_num
